import Mathlib

/-!
Verification of the launcher of the `xunlei` repository (`src/launcher.rs`,
`src/main.rs`) against its natural-language specification.

The Rust code is shallowly embedded: pure string manipulation becomes Lean
functions on `List Char` / `String`; fallible code returns `Except`; Rust
panics are distinguished from `anyhow` errors by a dedicated error
constructor, because the two have different observable consequences (an
`anyhow` error is caught by the top-level request handler and rendered as a
plain-text response, while a panic aborts the request handler).  Rust byte
indexing into `&str` is modelled by character indexing; every input appearing
in the claims is ASCII, where the two coincide.
-/

namespace Xunlei

/-- A CGI-gateway failure.  `err` models an `anyhow::Error` (propagated with
`?` and caught by the top-level handler); `panicked` models a Rust panic
(`expect` on a failed parse, or an out-of-bounds string slice). -/
inductive CgiErr where
  | err (msg : String)
  | panicked (msg : String)
deriving DecidableEq

/-- An HTTP response, mirroring `rouille::Response`: status code, header
list, body.  The body of the CGI branch is the lazily streamed remainder of
the child's stdout; here it is the corresponding string. -/
structure RResponse where
  status_code : Nat
  headers : List (String × String)
  body : String
deriving DecidableEq

/-- `rouille::Response::redirect_303(target)`. -/
def redirect303 (target : String) : RResponse :=
  ⟨303, [("Location", target)], ""⟩

/-- `rouille::Response::redirect_307(target)`. -/
def redirect307 (target : String) : RResponse :=
  ⟨307, [("Location", target)], ""⟩

/-- `rouille::Response::html(content)`. -/
def htmlResponse (content : String) : RResponse :=
  ⟨200, [("Content-Type", "text/html; charset=utf8")], content⟩

/-- `rouille::Response::text(content)`. -/
def textResponse (content : String) : RResponse :=
  ⟨200, [("Content-Type", "text/plain; charset=utf8")], content⟩

/-! ## String helpers mirroring the Rust standard library -/

/-- `str::split_once(sep)`: split at the first occurrence of `sep`,
returning the parts before and after it, or `none` when absent
(launcher.rs line 463). -/
def splitOnce (sep : Char) : List Char → Option (List Char × List Char)
  | [] => none
  | c :: cs =>
    if c = sep then some ([], cs)
    else
      match splitOnce sep cs with
      | none => none
      | some (a, b) => some (c :: a, b)

/-- Whether `hay` starts with `needle` (helper for `str::contains`). -/
def startsWithList : List Char → List Char → Bool
  | _, [] => true
  | [], _ :: _ => false
  | c :: cs, d :: ds => c == d && startsWithList cs ds

/-- `str::contains(needle)` as substring search (launcher.rs line 386). -/
def containsSubList (needle : List Char) : List Char → Bool
  | [] => needle.isEmpty
  | c :: t => startsWithList (c :: t) needle || containsSubList needle t

/-- `str::contains` on `String`s. -/
def containsSub (hay needle : String) : Bool :=
  containsSubList needle.toList hay.toList

/-- `u16::from_str` as used by `val[0..3].parse()` (launcher.rs line 467):
an optional leading `+`, then at least one decimal digit, value `< 2 ^ 16`. -/
def parseU16 (cs : List Char) : Option Nat :=
  let ds := match cs with
    | '+' :: rest => rest
    | _ => cs
  if ds.isEmpty then none
  else if ds.all Char.isDigit then
    let n := ds.foldl (fun a c => a * 10 + (c.toNat - 48)) 0
    if n < 65536 then some n else none
  else none

/-! ## Reading the CGI child's stdout

`BufRead::lines` yields each line with the trailing `"\n"` removed, and a
trailing `"\r"` removed only when a `"\n"` had been removed; a final fragment
not ended by `"\n"` is yielded as-is.  The loop at launcher.rs lines 457-473
breaks at the first empty line; the remainder of the stream becomes the
response body (line 474). -/

/-- Splits a character stream into the header lines before the first empty
line and the remaining body.  `acc` is the current partially read line. -/
def peelAux (acc : List Char) : List Char → List (List Char) × List Char
  | [] => if acc.isEmpty then ([], []) else ([acc], [])
  | c :: rest =>
    if c = '\n' then
      let line := if acc.getLast? = some '\r' then acc.dropLast else acc
      if line.isEmpty then ([], rest)
      else
        let q := peelAux [] rest
        (line :: q.1, q.2)
    else peelAux (acc ++ [c]) rest

/-- Header lines (up to the blank-line terminator) and body of a CGI stdout
stream. -/
def peel (cs : List Char) : List (List Char) × List Char :=
  peelAux [] cs

/-- The `context` message attached to a colonless header line
(launcher.rs line 463). -/
def splitMsg : String := "[XunleiPanelServer] Failed to split_once header"

/-- The `expect` message for a non-numeric `Status` value
(launcher.rs line 469). -/
def statusPanicMsg : String := "Status returned by CGI program is invalid"

/-- Processing of one CGI header line (launcher.rs lines 463-472):
`split_once(':')` (failure is an `anyhow` error), then `&val[1..]`
(panics when the part after the colon is empty), then for a `Status` header
`val[0..3].parse()` (the slice panics when fewer than three characters
remain; a failed parse panics through `expect`); any other line is appended
to the response headers. -/
def procHeaderLine (line : List Char) (status : Nat)
    (hdrs : List (String × String)) :
    Except CgiErr (Nat × List (String × String)) :=
  match splitOnce ':' line with
  | none => .error (.err splitMsg)
  | some (h, v0) =>
    if v0.length < 1 then .error (.panicked "byte index 1 is out of bounds")
    else
      let v := v0.drop 1
      if h = "Status".toList then
        if v.length < 3 then .error (.panicked "byte index 3 is out of bounds")
        else
          match parseU16 (v.take 3) with
          | some n => .ok (n, hdrs)
          | none => .error (.panicked statusPanicMsg)
      else .ok (status, hdrs ++ [(String.mk h, String.mk v)])

/-- Folds `procHeaderLine` over the header lines, short-circuiting on the
first failure, exactly as the `for` loop at launcher.rs lines 457-473. -/
def procLines : List (List Char) → Nat → List (String × String) →
    Except CgiErr (Nat × List (String × String))
  | [], st, hs => .ok (st, hs)
  | l :: ls, st, hs =>
    match procHeaderLine l st hs with
    | .error e => .error e
    | .ok (st2, hs2) => procLines ls st2 hs2

/-- Parsing of the CGI child's whole stdout into a response
(launcher.rs lines 452-475): default status 200, headers collected up to the
blank line, remainder of the stream as body. -/
def cgiParse (stdout : String) : Except CgiErr RResponse :=
  match procLines (peel stdout.toList).1 200 [] with
  | .error e => .error e
  | .ok (st, hs) => .ok ⟨st, hs, String.mk (peel stdout.toList).2⟩

/-- Whether the header block of a CGI stdout stream contains, before the
blank-line terminator, a non-empty line with no colon. -/
def hasColonlessHeaderLine (stdout : String) : Bool :=
  (peel stdout.toList).1.any (fun l => !l.isEmpty && !l.contains ':')

/-! ## Panel server -/

/-- Per-client server-side state (launcher.rs line 301); the Rust struct has
no fields. -/
structure Session where
deriving DecidableEq

/-- The credential-relevant configuration of `XunleiPanelServer`
(launcher.rs lines 316-325).  `auth_user` / `auth_password` hold the
SHA3-512 hex digests of the configured secrets, or `none` when the
corresponding option was not supplied.  The remaining fields of the Rust
struct (host, port, environment map, debug, uid, gid) do not influence any
claim and are omitted. -/
structure PanelCfg where
  auth_user : Option String
  auth_password : Option String
deriving DecidableEq

/-- `XunleiPanelServer::authentication` (launcher.rs lines 328-332):
plain equality of the submitted hashes against the configured ones, each
defaulting to the empty string when unset. -/
def authentication (cfg : PanelCfg) (auth_user auth_password : String) : Bool :=
  auth_user == cfg.auth_user.getD "" && auth_password == cfg.auth_password.getD ""

/-- An inbound HTTP request, restricted to the observations the routed code
makes of `rouille::Request`:  `method` is `request.method()`, `url` the
decoded path `request.url()`, `rawUrl` the raw URL `request.raw_url()`,
`loginForm` the result of `post_input!` on the two login form fields
(`none` when the form fails to parse), and `cgiStdout` the bytes the CGI
child writes on stdout when spawned for this request (the child is assumed
to spawn; spawn and pipe failures are I/O errors surfaced through `?` and
are not the subject of any claim).  The request headers, remote address and
body feed only the child's environment and stdin, which no claim observes;
they are omitted. -/
structure RRequest where
  method : String
  url : String
  rawUrl : String
  loginForm : Option (String × String)
  cgiStdout : String
deriving DecidableEq

/-- Modelled from the spec: the configured web-UI root path segment
`env::SYNOPKG_WEB_UI_HOME` (the `env` module is not under `src/`); the
spec's example names `/webman` as the configured root.  No theorem below
depends on the concrete value. -/
def SYNOPKG_WEB_UI_HOME : String := "/webman"

/-- Modelled from the spec: the bundled static login page
(`include_str!("static/login.html")`, asset not under `src/`; its content is
outside the spec's core). -/
def HTML_LOGIN : String := "static login page"

/-- Modelled from the spec: the bundled client-side hashing script
(`include_str!("static/sha3.min.js")`, asset not under `src/`). -/
def JS_SHA3 : String := "static sha3 script"

/-- The hard-coded `GET /webman/login.cgi` compatibility shim response
(launcher.rs lines 382-384): `Response::json` of a fixed string, an
additional `Content-Type` header, status 200.  (The serde quoting of the
JSON body is immaterial to every claim and elided.) -/
def shimResponse : RResponse :=
  ⟨200, [("Content-Type", "application/json"),
         ("Content-Type", "application/json; charset=utf-8")],
   "SynoToken"⟩

/-- The `try_or_400!` response for an unparsable login form
(launcher.rs lines 303-314): an error rendered as JSON with status 400. -/
def err400Json : RResponse :=
  ⟨400, [("Content-Type", "application/json")], ""⟩

/-- The CGI proxying of one request (launcher.rs lines 389-475): spawn the
CGI executable and parse its stdout.  The environment-variable assembly
(lines 391-444) configures the child and is not observed by any claim; the
child's stdout is the request's `cgiStdout`. -/
def cgiProxy (req : RRequest) : Except CgiErr RResponse :=
  cgiParse req.cgiStdout

/-- `XunleiPanelServer::handle_route_logged_in` (launcher.rs lines 380-478):
the `GET /webman/login.cgi` shim, then a 307 redirect to the web-UI root for
raw URLs not containing the configured root segment, else the CGI proxy. -/
def handle_route_logged_in (req : RRequest) : Except CgiErr RResponse :=
  if req.method = "GET" ∧ req.url = "/webman/login.cgi" then .ok shimResponse
  else if !containsSub req.rawUrl SYNOPKG_WEB_UI_HOME then
    .ok (redirect307 SYNOPKG_WEB_UI_HOME)
  else cgiProxy req

/-- `XunleiPanelServer::handle_route` (launcher.rs lines 335-377):
unconditional session materialization when either credential is unset, the
`POST /login` route, then the logged-in handler when a session is present,
else the static login routes and a 303 redirect to `/login`.  The returned
pair is the final `session_data` and the route's `anyhow::Result`. -/
def handle_route (cfg : PanelCfg) (req : RRequest) (sd0 : Option Session) :
    Option Session × Except CgiErr RResponse :=
  let sd := if cfg.auth_user.isNone || cfg.auth_password.isNone then
      some Session.mk else sd0
  if req.method = "POST" ∧ req.url = "/login" then
    match req.loginForm with
    | none => (sd, .ok err400Json)
    | some (u, p) =>
      if authentication cfg u p then (some Session.mk, .ok (redirect303 "/"))
      else (sd, .ok (htmlResponse "Wrong login/password"))
  else
    match sd with
    | some _ => (sd, handle_route_logged_in req)
    | none =>
      if req.method = "GET" ∧ req.url = "/login" then
        (none, .ok (htmlResponse HTML_LOGIN))
      else if req.method = "GET" ∧ req.url = "/js/sha3.min.js" then
        (none, .ok (htmlResponse JS_SHA3))
      else (none, .ok (redirect303 "/login"))

/-- What the client observes of one request: either a written response, or a
panic of the request handler (which never produces the locally generated
response; the HTTP framework confines it to the request's thread). -/
inductive Outcome where
  | response (r : RResponse)
  | handlerPanic (msg : String)
deriving DecidableEq

/-- Whether an outcome is a written response. -/
def Outcome.isResponse : Outcome → Bool
  | .response _ => true
  | .handlerPanic _ => false

/-- The top-level conversion of the route result (launcher.rs lines
509-512): a returned `anyhow` error becomes the plain-text response
`"An error occurred {e}"`; a panic escapes the closure. -/
def surfaceErr : Except CgiErr RResponse → Outcome
  | .ok r => .response r
  | .error (.err m) => .response (textResponse ("An error occurred " ++ m))
  | .error (.panicked m) => .handlerPanic m

/-- One request through the server loop's closure (launcher.rs lines
489-513): route, then surface errors.  The pair is the final session value
(persisted into the store by the surrounding code) and the outcome. -/
def serveOne (cfg : PanelCfg) (req : RRequest) (sd : Option Session) :
    Option Session × Outcome :=
  ((handle_route cfg req sd).1, surfaceErr (handle_route cfg req sd).2)

/-! ## Session store

The store (launcher.rs lines 483, 493-506) is a
`Mutex<HashMap<String, Session>>`; each operation holds the lock for its own
duration, so the store's sequential behavior is that of the map.  The map is
embedded as an association list whose observable behavior through `get`
matches `HashMap::get` / `insert` / `remove`. -/

/-- `sessions_storage.lock().unwrap().get(id).cloned()` (line 493). -/
def sessionGet (m : List (String × Session)) (id : String) : Option Session :=
  match m.find? (fun p => p.1 == id) with
  | some p => some p.2
  | none => none

/-- `sessions_storage.lock().unwrap().insert(id, s)` (line 504). -/
def sessionPut (m : List (String × Session)) (id : String) (s : Session) :
    List (String × Session) :=
  (id, s) :: m.filter (fun p => !(p.1 == id))

/-- `sessions_storage.lock().unwrap().remove(id)` (line 506). -/
def sessionRemove (m : List (String × Session)) (id : String) :
    List (String × Session) :=
  m.filter (fun p => !(p.1 == id))

/-! ## Backend supervisor

`XunleiBackendServer::run` (launcher.rs lines 191-296) is embedded as a
function from the syscall results and the delivered signal trace to the
sequence of effects it performs and its exit mode.  The directory-creation
step mutates a set of existing directories, threaded explicitly. -/

/-- An OS signal as observed by the wait loop. -/
inductive Sig where
  | sigint
  | sighup
  | sigterm
  | other (n : Nat)
deriving DecidableEq

/-- The three termination signals the supervisor subscribes to
(launcher.rs lines 245-249). -/
def isTermSig : Sig → Bool
  | .sigint => true
  | .sighup => true
  | .sigterm => true
  | .other _ => false

/-- An observable effect of the supervisor. -/
inductive Ev where
  | createDir (path : String)
  | chownDir (path : String)
  | umountPre (path : String)
  | mountBind (source target : String) (flags : List String)
  | spawnChild
  | killChild (sig : Sig)
  | logUnhandled
  | umountFinal (path : String)
deriving DecidableEq

/-- Number of occurrences of an effect in a trace. -/
def countEv (a : Ev) (evs : List Ev) : Nat :=
  evs.countP (fun e => decide (e = a))

/-- How `XunleiBackendServer::run` ends:  normal return, an `anyhow` error
(mount or spawn failure), a panic (the `expect` at launcher.rs line 267
when both kill attempts fail), or blocked forever awaiting a signal. -/
inductive RunExit where
  | ok
  | errored
  | panicked
  | blocked
deriving DecidableEq

/-- Result of the signal wait loop. -/
inductive LoopRes where
  | stopped
  | fatalPanic
  | waiting
deriving DecidableEq

/-- Modelled from the spec: the fixed var directory `env::SYNOPKG_VAR`
(the `env` module is not under `src/`); a fixed path constant, distinct from
a configurable mount target in general.  No theorem below depends on the
concrete value beyond its being a fixed string. -/
def SYNOPKG_VAR : String := "/var/packages/pan-xunlei-com/target/var"

/-- The syscall-result environment and signal trace of one supervisor run.
Each kill result is the outcome `nix::sys::signal::kill` would report for
the single call the code can make with that signal. -/
structure BackendEnv where
  mountOk : Bool
  spawnOk : Bool
  killIntOk : Bool
  killTermOk : Bool
  signals : List Sig
deriving DecidableEq

/-- The fields of `XunleiBackendServer` (launcher.rs lines 167-174) that
claims observe; the environment map, debug flag, uid and gid configure the
child and are omitted. -/
structure BackendServer where
  download_path : String
  mount_bind_download_path : String
deriving DecidableEq

/-- The signal wait loop (launcher.rs lines 251-277):  a termination signal
triggers `kill(child, SIGINT)`; on failure `kill(child, SIGTERM)` is
attempted and a failure of that panics through `expect`; the loop then
breaks.  Any other signal is logged and the loop continues.  An exhausted
trace leaves the loop blocked on `signals.forever()`. -/
def waitLoop (killIntOk killTermOk : Bool) : List Sig → List Ev × LoopRes
  | [] => ([], .waiting)
  | s :: rest =>
    if isTermSig s then
      if killIntOk then ([.killChild .sigint], .stopped)
      else if killTermOk then
        ([.killChild .sigint, .killChild .sigterm], .stopped)
      else ([.killChild .sigint, .killChild .sigterm], .fatalPanic)
    else
      ((.logUnhandled : Ev) :: (waitLoop killIntOk killTermOk rest).1,
       (waitLoop killIntOk killTermOk rest).2)

/-- The directory-creation effects of launcher.rs lines 192-196:
`create_dir_all` (mode `0o777`) and `chown` on the fixed var directory when
it does not exist.  (Both return `Result`s whose failure would abort the
run; their success is not at issue in any claim and is assumed.) -/
def preEvs (fs0 : List String) : List Ev :=
  if SYNOPKG_VAR ∈ fs0 then [] else [.createDir SYNOPKG_VAR, .chownDir SYNOPKG_VAR]

/-- The set of existing directories after launcher.rs lines 192-196. -/
def preFs (fs0 : List String) : List String :=
  if SYNOPKG_VAR ∈ fs0 then fs0 else SYNOPKG_VAR :: fs0

/-- `XunleiBackendServer::run` (launcher.rs lines 191-296):  ensure the var
directory exists; attempt `umount` of the bind target with the result
discarded (line 198); `mount` the download path onto the bind target with
the single flag `MS_BIND`, bailing out on failure (lines 199-220); spawn the
backend child (line 238, `?` on failure); run the signal wait loop; after a
normal break, attempt the final `umount` unconditionally, logging either
way (lines 280-293). -/
def backendRun (srv : BackendServer) (env : BackendEnv) (fs0 : List String) :
    List Ev × List String × RunExit :=
  let mountEvs := preEvs fs0 ++
    [Ev.umountPre srv.mount_bind_download_path,
     Ev.mountBind srv.download_path srv.mount_bind_download_path ["MS_BIND"]]
  if env.mountOk = false then (mountEvs, preFs fs0, .errored)
  else if env.spawnOk = false then (mountEvs, preFs fs0, .errored)
  else
    match (waitLoop env.killIntOk env.killTermOk env.signals).2 with
    | .stopped =>
      (mountEvs ++ [Ev.spawnChild] ++
        (waitLoop env.killIntOk env.killTermOk env.signals).1 ++
        [Ev.umountFinal srv.mount_bind_download_path], preFs fs0, .ok)
    | .fatalPanic =>
      (mountEvs ++ [Ev.spawnChild] ++
        (waitLoop env.killIntOk env.killTermOk env.signals).1, preFs fs0, .panicked)
    | .waiting =>
      (mountEvs ++ [Ev.spawnChild] ++
        (waitLoop env.killIntOk env.killTermOk env.signals).1, preFs fs0, .blocked)

/-! ## Helper lemmas -/

theorem splitOnce_append_sep (a b : List Char) (h : ':' ∉ a) :
    splitOnce ':' (a ++ ':' :: b) = some (a, b) := by
  induction a with
  | nil => simp [splitOnce]
  | cons c cs ih =>
    simp only [List.mem_cons, not_or] at h
    have hc : ¬c = ':' := fun hc => h.1 hc.symm
    simp [splitOnce, hc, ih h.2]

theorem procLines_append (ls1 ls2 : List (List Char)) (st : Nat)
    (hs : List (String × String)) :
    procLines (ls1 ++ ls2) st hs =
      match procLines ls1 st hs with
      | .error e => .error e
      | .ok (st2, hs2) => procLines ls2 st2 hs2 := by
  induction ls1 generalizing st hs with
  | nil => simp [procLines]
  | cons l ls ih =>
    simp only [List.cons_append, procLines]
    cases procHeaderLine l st hs with
    | error e => rfl
    | ok p => exact ih p.1 p.2

theorem sessionGet_cons (a : String × Session) (t : List (String × Session))
    (id : String) :
    sessionGet (a :: t) id =
      if (a.1 == id) = true then some a.2 else sessionGet t id := by
  unfold sessionGet
  rw [List.find?_cons]
  cases hb : (a.1 == id) <;> simp [hb]

theorem filterNe_cons (a : String × Session) (t : List (String × Session))
    (id : String) :
    (a :: t).filter (fun p => !(p.1 == id)) =
      if (a.1 == id) = true then t.filter (fun p => !(p.1 == id))
      else a :: t.filter (fun p => !(p.1 == id)) := by
  rw [List.filter_cons]
  cases hb : (a.1 == id) <;> simp [hb]

theorem sessionGet_filter_self (m : List (String × Session)) (id : String) :
    sessionGet (m.filter (fun p => !(p.1 == id))) id = none := by
  induction m with
  | nil => rfl
  | cons a t ih =>
    rw [filterNe_cons]
    cases hb : (a.1 == id)
    · rw [if_neg (by simp [hb]), sessionGet_cons, if_neg (by simp [hb])]
      exact ih
    · rw [if_pos (by simp [hb])]
      exact ih

theorem sessionGet_filter_other (m : List (String × Session)) (id id2 : String)
    (h : id ≠ id2) :
    sessionGet (m.filter (fun p => !(p.1 == id))) id2 = sessionGet m id2 := by
  induction m with
  | nil => rfl
  | cons a t ih =>
    rw [filterNe_cons]
    cases hb : (a.1 == id)
    · rw [if_neg (by simp [hb]),
        sessionGet_cons a (t.filter (fun p => !(p.1 == id))) id2,
        sessionGet_cons a t id2]
      cases hb2 : (a.1 == id2)
      · rw [if_neg (by simp [hb2]), if_neg (by simp [hb2])]
        exact ih
      · rw [if_pos (by simp [hb2]), if_pos (by simp [hb2])]
    · have ha : a.1 = id := by simpa using hb
      have hb2 : (a.1 == id2) = false := by
        rw [ha]
        simpa using h
      rw [if_pos (by simp [hb]), sessionGet_cons a t id2, if_neg (by simp [hb2])]
      exact ih

theorem countEv_append (a : Ev) (l1 l2 : List Ev) :
    countEv a (l1 ++ l2) = countEv a l1 + countEv a l2 :=
  List.countP_append _ _ _

theorem countEv_cons (a e : Ev) (l : List Ev) :
    countEv a (e :: l) = countEv a l + if e = a then 1 else 0 := by
  simp [countEv, List.countP_cons]

theorem countEv_nil (a : Ev) : countEv a [] = 0 := rfl

theorem countEv_preEvs_killChild (fs0 : List String) (s : Sig) :
    countEv (Ev.killChild s) (preEvs fs0) = 0 := by
  unfold preEvs
  split <;> simp [countEv]

theorem countEv_preEvs_log (fs0 : List String) :
    countEv Ev.logUnhandled (preEvs fs0) = 0 := by
  unfold preEvs
  split <;> simp [countEv]

theorem killChild_not_mem_preEvs (fs0 : List String) (s : Sig) :
    Ev.killChild s ∉ preEvs fs0 := by
  unfold preEvs
  split <;> simp

theorem waitLoop_spec (ki kt : Bool) (sigs : List Sig)
    (h : sigs.any isTermSig = true) :
    countEv (Ev.killChild .sigint) (waitLoop ki kt sigs).1 = 1
    ∧ (Ev.killChild .sigterm ∈ (waitLoop ki kt sigs).1 ↔ ki = false)
    ∧ (waitLoop ki kt sigs).2 =
        (if ki then .stopped else if kt then .stopped else .fatalPanic)
    ∧ countEv Ev.logUnhandled (waitLoop ki kt sigs).1 =
        (sigs.takeWhile (fun s => !isTermSig s)).length := by
  induction sigs with
  | nil => simp at h
  | cons s rest ih =>
    unfold waitLoop
    cases hts : isTermSig s
    · have h' : rest.any isTermSig = true := by simpa [hts] using h
      obtain ⟨i1, i2, i3, i4⟩ := ih h'
      simp only [hts, Bool.false_eq_true, if_false, List.takeWhile_cons, Bool.not_false,
        if_true, List.length_cons]
      refine ⟨?_, ?_, ?_, ?_⟩
      · simpa [countEv, List.countP_cons] using i1
      · simpa using i2
      · simpa using i3
      · simp only [countEv, List.countP_cons] at i4 ⊢
        simp [i4]
    · cases ki <;> cases kt <;>
        simp [hts, countEv, List.countP_cons, List.takeWhile_cons]

theorem mem_preFs (fs0 : List String) : SYNOPKG_VAR ∈ preFs fs0 := by
  unfold preFs
  split
  · assumption
  · exact List.mem_cons_self _ _

theorem backendRun_fs (srv : BackendServer) (env : BackendEnv)
    (fs0 : List String) : (backendRun srv env fs0).2.1 = preFs fs0 := by
  simp only [backendRun]
  split
  · rfl
  · split
    · rfl
    · split <;> rfl

theorem backendRun_evs_shape (srv : BackendServer) (env : BackendEnv)
    (fs0 : List String) :
    ∃ rest, (backendRun srv env fs0).1 =
      preEvs fs0 ++ [Ev.umountPre srv.mount_bind_download_path,
        Ev.mountBind srv.download_path srv.mount_bind_download_path ["MS_BIND"]]
        ++ rest := by
  simp only [backendRun]
  split
  · exact ⟨[], by simp⟩
  · split
    · exact ⟨[], by simp⟩
    · split
      · exact ⟨[Ev.spawnChild] ++
          (waitLoop env.killIntOk env.killTermOk env.signals).1 ++
          [Ev.umountFinal srv.mount_bind_download_path], by simp⟩
      · exact ⟨[Ev.spawnChild] ++
          (waitLoop env.killIntOk env.killTermOk env.signals).1, by simp⟩
      · exact ⟨[Ev.spawnChild] ++
          (waitLoop env.killIntOk env.killTermOk env.signals).1, by simp⟩

/-! ## Claim theorems -/

/-- C6: on the CGI stdout bytes `"Status: 404 X\r\nFoo: bar\r\n\r\nBODY"`
the parser produces status code 404, the single forwarded header
`Foo: bar` (the `Status` line is not forwarded), and body exactly
`"BODY"`. -/
theorem cgi_parse_status_header_body_example :
    cgiParse "Status: 404 X\r\nFoo: bar\r\n\r\nBODY" =
      .ok ⟨404, [("Foo", "bar")], "BODY"⟩ := by
  rfl

/-- C3: the header parser strips exactly one character after the colon
(`"Foo:bar"` forwards value `"ar"`) and reads exactly the first three
characters of a `Status` value (`"Status: 2345"` yields 234); a line whose
value part after the colon is empty (`"Foo:"`), or a `Status` line with
fewer than three characters after the stripped one (`"Status: 9"`),
performs an out-of-bounds string slice and panics instead of returning an
error. -/
theorem header_slice_out_of_bounds_panics :
    cgiParse "Foo:bar\r\n\r\n" = .ok ⟨200, [("Foo", "ar")], ""⟩
    ∧ cgiParse "Status: 2345\r\n\r\nZ" = .ok ⟨234, [], "Z"⟩
    ∧ cgiParse "Foo:\r\n\r\nBODY" =
        .error (.panicked "byte index 1 is out of bounds")
    ∧ cgiParse "Status: 9\r\n\r\nBODY" =
        .error (.panicked "byte index 3 is out of bounds") := by
  exact ⟨rfl, rfl, rfl, rfl⟩

/-- C1 counterexample: with credentials unset (both `none`), the submitted
pair `("a", "b")` makes `authentication` return `false`, refuting the claim
that `decide` returns `true` on every input when credentials are unset. -/
theorem auth_disabled_nonempty_input_false :
    authentication ⟨none, none⟩ "a" "b" = false := by
  rfl

/-- C1 (amended): with both credentials configured, `authentication`
returns `true` exactly when both submitted hashes equal the configured
ones.  When either credential is unset, `authentication` compares against
the empty string (so a non-empty submission fails), but every request is
nevertheless treated as authenticated: `handle_route` materializes a
session unconditionally. -/
theorem auth_decide_and_disabled_session (cfg : PanelCfg) (uh ph u p : String) :
    (cfg.auth_user = some uh → cfg.auth_password = some ph →
      (authentication cfg u p = true ↔ (u = uh ∧ p = ph)))
    ∧ ((cfg.auth_user = none ∨ cfg.auth_password = none) →
      ∀ (req : RRequest) (sd : Option Session),
        (handle_route cfg req sd).1.isSome = true) := by
  constructor
  · intro hu hp2
    simp [authentication, hu, hp2]
  · intro hnone req sd
    have hcond : (cfg.auth_user.isNone || cfg.auth_password.isNone) = true := by
      rcases hnone with h | h <;> simp [h]
    unfold handle_route
    simp only [hcond, if_true]
    split
    · split
      · rfl
      · split <;> rfl
    · rfl

/-- C1 witness. -/
theorem auth_decide_and_disabled_session_witness :
    (authentication ⟨some "U", some "P"⟩ "U" "P" = true ↔ ("U" = "U" ∧ "P" = "P"))
    ∧ (handle_route ⟨none, none⟩ ⟨"GET", "/x", "/x", none, ""⟩ none).1.isSome
        = true := by
  refine ⟨(auth_decide_and_disabled_session ⟨some "U", some "P"⟩ "U" "P" "U" "P").1
    rfl rfl, ?_⟩
  exact (auth_decide_and_disabled_session ⟨none, none⟩ "" "" "" "").2
    (Or.inl rfl) ⟨"GET", "/x", "/x", none, ""⟩ none

/-- C2 counterexample: on the CGI stdout `"Status: abc\r\n\r\n"` (first
three value characters not a number) the request handler panics through
`expect`; no locally generated 400-class response is produced, refuting the
claim that the failure is surfaced as one. -/
theorem status_nonnumeric_panics_not_400 :
    Outcome.isResponse (serveOne ⟨none, none⟩
      ⟨"GET", "/webman/x", "/webman/x", none, "Status: abc\r\n\r\n"⟩ none).2 = false := by
  rfl

/-- C2 (amended): a `Status:` header line whose first three value
characters do not parse as a number makes the parse panic through `expect`
(`"Status returned by CGI program is invalid"`); at the server's top level
this panic escapes the request handler instead of being converted into a
locally generated error response.  (The HTTP framework confines the panic
to the request's thread, so the server process itself keeps serving.) -/
theorem status_nonnumeric_panics :
    (∀ (v0 : List Char) (status : Nat) (hdrs : List (String × String)),
        1 ≤ v0.length → 3 ≤ (v0.drop 1).length →
        parseU16 ((v0.drop 1).take 3) = none →
        procHeaderLine ("Status".toList ++ ':' :: v0) status hdrs
          = .error (.panicked statusPanicMsg))
    ∧ (serveOne ⟨none, none⟩
        ⟨"GET", "/webman/x", "/webman/x", none, "Status: abc\r\n\r\n"⟩ none).2
        = .handlerPanic statusPanicMsg := by
  constructor
  · intro v0 status hdrs h1 h3 hp
    have hsp : splitOnce ':' ("Status".toList ++ ':' :: v0)
        = some ("Status".toList, v0) := splitOnce_append_sep _ _ (by decide)
    simp only [procHeaderLine, hsp]
    rw [if_neg (by omega), if_pos trivial, if_neg (by omega), hp]
  · rfl

/-- C2 witness. -/
theorem status_nonnumeric_panics_witness :
    procHeaderLine ("Status".toList ++ ':' :: [' ', 'a', 'b', 'c']) 200 []
      = .error (.panicked statusPanicMsg) :=
  status_nonnumeric_panics.1 [' ', 'a', 'b', 'c'] 200 []
    (by decide) (by decide) (by decide)

/-- C7 counterexample: the CGI stdout `"Foo:\r\nbar\r\n\r\n"` contains the
non-empty colonless line `"bar"` before the blank-line terminator, yet the
gateway call does not return a surfaced error: the earlier line `"Foo:"`
panics the handler first, refuting the claim as universally stated. -/
theorem colonless_line_panic_preempts_error :
    hasColonlessHeaderLine "Foo:\r\nbar\r\n\r\n" = true
    ∧ Outcome.isResponse (serveOne ⟨none, none⟩
        ⟨"GET", "/webman/x", "/webman/x", none, "Foo:\r\nbar\r\n\r\n"⟩ none).2 = false
    ∧ (serveOne ⟨none, none⟩
        ⟨"GET", "/webman/x", "/webman/x", none, "Foo:\r\nbar\r\n\r\n"⟩ none).2
        = .handlerPanic "byte index 1 is out of bounds" := by
  exact ⟨rfl, rfl, rfl⟩

/-- C7 (amended): when every earlier header line processes without failure,
a non-empty line with no colon makes the gateway call return an error
(`split_once` context), and at the top level that error is surfaced as the
plain-text response `"An error occurred ..."` rather than panicking the
server. -/
theorem colonless_line_surfaced_error :
    (∀ (ls ls2 : List (List Char)) (l : List Char) (st : Nat)
        (hs : List (String × String)),
        procLines ls 200 [] = .ok (st, hs) → l ≠ [] → splitOnce ':' l = none →
        procLines (ls ++ l :: ls2) 200 [] = .error (.err splitMsg))
    ∧ (serveOne ⟨none, none⟩
        ⟨"GET", "/webman/x", "/webman/x", none, "nocolon\r\n\r\nB"⟩ none).2
        = .response (textResponse ("An error occurred " ++ splitMsg)) := by
  constructor
  · intro ls ls2 l st hs hok hne hsplit
    rw [procLines_append, hok]
    simp [procLines, procHeaderLine, hsplit]
  · rfl

/-- C7 witness. -/
theorem colonless_line_surfaced_error_witness :
    procLines ([] ++ ['b', 'a', 'r'] :: []) 200 [] = .error (.err splitMsg) :=
  colonless_line_surfaced_error.1 [] [] ['b', 'a', 'r'] 200 []
    rfl (by decide) (by decide)

/-- C8: with both credentials configured, a `POST /login` whose two form
fields equal the configured hashes creates a session and responds 303 with
`Location: /`; one whose fields do not both match responds 200 with body
containing `"Wrong login/password"` and leaves the session state exactly as
it was (no session is created). -/
theorem post_login_success_and_failure (uh ph u p : String) (req : RRequest)
    (sd : Option Session) (hm : req.method = "POST") (hu2 : req.url = "/login")
    (hf : req.loginForm = some (u, p)) :
    (u = uh ∧ p = ph →
      handle_route ⟨some uh, some ph⟩ req sd
        = (some Session.mk, .ok (redirect303 "/"))
      ∧ (redirect303 "/").status_code = 303
      ∧ ("Location", "/") ∈ (redirect303 "/").headers)
    ∧ (¬(u = uh ∧ p = ph) →
      handle_route ⟨some uh, some ph⟩ req sd
        = (sd, .ok (htmlResponse "Wrong login/password"))
      ∧ (htmlResponse "Wrong login/password").status_code = 200
      ∧ containsSub (htmlResponse "Wrong login/password").body
          "Wrong login/password" = true) := by
  constructor
  · intro h
    have hauth : authentication ⟨some uh, some ph⟩ u p = true := by
      simp [authentication, h.1, h.2]
    refine ⟨?_, rfl, by simp [redirect303]⟩
    unfold handle_route
    simp [hm, hu2, hf, hauth]
  · intro h
    have hauth : authentication ⟨some uh, some ph⟩ u p = false := by
      rcases not_and_or.mp h with h' | h' <;> simp [authentication, h']
    refine ⟨?_, rfl, by decide⟩
    unfold handle_route
    simp [hm, hu2, hf, hauth]

/-- C8 witness. -/
theorem post_login_success_and_failure_witness :
    handle_route ⟨some "U", some "P"⟩ ⟨"POST", "/login", "/login", some ("U", "P"), ""⟩
        none = (some Session.mk, .ok (redirect303 "/"))
    ∧ handle_route ⟨some "U", some "P"⟩ ⟨"POST", "/login", "/login", some ("U", "X"), ""⟩
        none = (none, .ok (htmlResponse "Wrong login/password")) := by
  constructor
  · exact ((post_login_success_and_failure "U" "P" "U" "P"
      ⟨"POST", "/login", "/login", some ("U", "P"), ""⟩ none rfl rfl rfl).1
      ⟨rfl, rfl⟩).1
  · exact ((post_login_success_and_failure "U" "P" "U" "X"
      ⟨"POST", "/login", "/login", some ("U", "X"), ""⟩ none rfl rfl rfl).2
      (by simp)).1

/-- C9: for every authenticated request other than the
`GET /webman/login.cgi` shim, a raw URL not containing the configured
web-UI root segment yields a 307 redirect whose `Location` is that root,
and a raw URL containing it is proxied to the CGI executable. -/
theorem webui_root_redirect_or_proxy (req : RRequest)
    (hshim : ¬(req.method = "GET" ∧ req.url = "/webman/login.cgi")) :
    (containsSub req.rawUrl SYNOPKG_WEB_UI_HOME = false →
      handle_route_logged_in req = .ok (redirect307 SYNOPKG_WEB_UI_HOME)
      ∧ (redirect307 SYNOPKG_WEB_UI_HOME).status_code = 307
      ∧ ("Location", SYNOPKG_WEB_UI_HOME) ∈ (redirect307 SYNOPKG_WEB_UI_HOME).headers)
    ∧ (containsSub req.rawUrl SYNOPKG_WEB_UI_HOME = true →
      handle_route_logged_in req = cgiProxy req) := by
  constructor
  · intro hc
    refine ⟨?_, rfl, by simp [redirect307]⟩
    unfold handle_route_logged_in
    rw [if_neg hshim, hc]
    rfl
  · intro hc
    unfold handle_route_logged_in
    rw [if_neg hshim, hc]
    rfl

/-- C9 witness: the literal path `/other` redirects to the configured root;
a path beneath the root is proxied. -/
theorem webui_root_redirect_or_proxy_witness :
    handle_route_logged_in ⟨"GET", "/other", "/other", none, ""⟩
      = .ok (redirect307 SYNOPKG_WEB_UI_HOME)
    ∧ handle_route_logged_in ⟨"GET", "/webman/x", "/webman/x", none, "X"⟩
      = cgiProxy ⟨"GET", "/webman/x", "/webman/x", none, "X"⟩ := by
  constructor
  · exact ((webui_root_redirect_or_proxy ⟨"GET", "/other", "/other", none, ""⟩
      (by decide)).1 (by decide)).1
  · exact (webui_root_redirect_or_proxy ⟨"GET", "/webman/x", "/webman/x", none, "X"⟩
      (by decide)).2 (by decide)

/-- C10: the session store returns a stored value for the identifier it was
put under, returns `none` after removal, and operations on one identifier
leave lookups of a distinct identifier unchanged. -/
theorem session_store_get_put_remove (m : List (String × Session))
    (id id2 : String) (s : Session) (hne : id ≠ id2) :
    sessionGet (sessionPut m id s) id = some s
    ∧ sessionGet (sessionRemove m id) id = none
    ∧ sessionGet (sessionPut m id s) id2 = sessionGet m id2
    ∧ sessionGet (sessionRemove m id) id2 = sessionGet m id2 := by
  refine ⟨?_, ?_, ?_, ?_⟩
  · simp [sessionGet, sessionPut, List.find?_cons]
  · exact sessionGet_filter_self m id
  · have hb : (id == id2) = false := by simpa using hne
    simp only [sessionPut, sessionGet, List.find?_cons, hb]
    exact sessionGet_filter_other m id id2 hne
  · exact sessionGet_filter_other m id id2 hne

/-- C10 witness. -/
theorem session_store_get_put_remove_witness :
    sessionGet (sessionPut [] "a" Session.mk) "a" = some Session.mk
    ∧ sessionGet (sessionRemove [] "a") "a" = none
    ∧ sessionGet (sessionPut [("b", Session.mk)] "a" Session.mk) "b"
        = sessionGet [("b", Session.mk)] "b" := by
  have h := session_store_get_put_remove [] "a" "b" Session.mk (by decide)
  have h2 := session_store_get_put_remove [("b", Session.mk)] "a" "b" Session.mk
    (by decide)
  exact ⟨h.1, h.2.1, h2.2.2.1⟩

/-- C4: in a supervisor run whose signal trace contains a termination
signal (mount and spawn having succeeded), the child receives exactly one
interrupt signal; a forced terminate is attempted exactly when that
interrupt delivery failed; on every path on which the run returns (i.e.
does not abort through the `expect` panic of a failed escalation) the bind
target unmount is attempted, regardless of whether the interrupt delivery
succeeded; and every other signal before the first termination signal is
logged while the wait loop continues. -/
theorem supervisor_shutdown_behavior (srv : BackendServer) (env : BackendEnv)
    (fs0 : List String) (hm : env.mountOk = true) (hs : env.spawnOk = true)
    (ht : env.signals.any isTermSig = true) :
    countEv (Ev.killChild .sigint) (backendRun srv env fs0).1 = 1
    ∧ (Ev.killChild .sigterm ∈ (backendRun srv env fs0).1 ↔ env.killIntOk = false)
    ∧ ((backendRun srv env fs0).2.2 ≠ RunExit.panicked →
        Ev.umountFinal srv.mount_bind_download_path ∈ (backendRun srv env fs0).1)
    ∧ (env.killIntOk = false → env.killTermOk = false →
        (backendRun srv env fs0).2.2 = RunExit.panicked)
    ∧ countEv Ev.logUnhandled (backendRun srv env fs0).1 =
        (env.signals.takeWhile (fun s => !isTermSig s)).length := by
  obtain ⟨w1, w2, w3, w4⟩ :=
    waitLoop_spec env.killIntOk env.killTermOk env.signals ht
  unfold backendRun
  cases hki : env.killIntOk <;> cases hkt : env.killTermOk <;>
    simp only [hki, hkt, Bool.false_eq_true, Bool.true_eq_false, if_false,
      if_true] at w1 w2 w3 w4 <;>
    rw [w3] <;>
    simp only [hm, hs, Bool.true_eq_false, if_false] <;>
    refine ⟨?_, ?_, ?_, ?_, ?_⟩ <;>
    simp [countEv_append, countEv_cons, countEv_nil, countEv_preEvs_killChild,
      countEv_preEvs_log, w1, w2, w4, killChild_not_mem_preEvs _ Sig.sigterm]

/-- C4 witness. -/
theorem supervisor_shutdown_behavior_witness :
    countEv (Ev.killChild .sigint)
      (backendRun ⟨"/downloads", "/mnt/target"⟩
        ⟨true, true, true, true, [Sig.other 10, Sig.sigint]⟩ []).1 = 1
    ∧ Ev.umountFinal "/mnt/target" ∈
      (backendRun ⟨"/downloads", "/mnt/target"⟩
        ⟨true, true, true, true, [Sig.other 10, Sig.sigint]⟩ []).1
    ∧ countEv Ev.logUnhandled
      (backendRun ⟨"/downloads", "/mnt/target"⟩
        ⟨true, true, true, true, [Sig.other 10, Sig.sigint]⟩ []).1 = 1 := by
  have h := supervisor_shutdown_behavior ⟨"/downloads", "/mnt/target"⟩
    ⟨true, true, true, true, [Sig.other 10, Sig.sigint]⟩ [] rfl rfl (by decide)
  exact ⟨h.1, h.2.2.1 (by decide), h.2.2.2.2⟩

/-- C5 counterexample: `bind` does not ensure the mount target exists.  With
target `/mnt/target` (distinct from the fixed var directory) and no
directory existing initially, the run creates only the var directory: the
target is not in the resulting directory set and no creation effect on it
is emitted, refuting "ensures `target_dir` exists". -/
theorem bind_does_not_create_target :
    "/mnt/target" ∉ (backendRun ⟨"/downloads", "/mnt/target"⟩
        ⟨true, true, true, true, [Sig.sigint]⟩ []).2.1
    ∧ Ev.createDir "/mnt/target" ∉ (backendRun ⟨"/downloads", "/mnt/target"⟩
        ⟨true, true, true, true, [Sig.sigint]⟩ []).1 := by
  refine ⟨by decide, by decide⟩

/-- C5 (amended): the pre-mount phase ensures the fixed var directory (not
`target_dir`) exists, creating it only when absent; it then attempts an
unmount of the target with the result discarded, immediately followed by a
bind mount of `source_dir` onto `target_dir` whose only flag is `MS_BIND`;
if the bind mount fails the run returns an error without ever spawning the
backend. -/
theorem mount_bind_amended (srv : BackendServer) (env : BackendEnv)
    (fs0 : List String) :
    SYNOPKG_VAR ∈ (backendRun srv env fs0).2.1
    ∧ (∃ rest, (backendRun srv env fs0).1 =
        preEvs fs0 ++ [Ev.umountPre srv.mount_bind_download_path,
          Ev.mountBind srv.download_path srv.mount_bind_download_path ["MS_BIND"]]
          ++ rest)
    ∧ (preEvs fs0 = [] ∨
        preEvs fs0 = [Ev.createDir SYNOPKG_VAR, Ev.chownDir SYNOPKG_VAR])
    ∧ (env.mountOk = false →
        (backendRun srv env fs0).2.2 = RunExit.errored
        ∧ Ev.spawnChild ∉ (backendRun srv env fs0).1) := by
  refine ⟨?_, ?_, ?_, ?_⟩
  · rw [backendRun_fs]
    exact mem_preFs fs0
  · exact backendRun_evs_shape srv env fs0
  · unfold preEvs
    split
    · exact Or.inl rfl
    · exact Or.inr rfl
  · intro hmf
    unfold backendRun
    rw [if_pos hmf]
    refine ⟨rfl, ?_⟩
    intro hmem
    rcases List.mem_append.mp hmem with hmem | hmem
    · exact absurd hmem (by unfold preEvs; split <;> simp)
    · simp at hmem

/-- C5 witness. -/
theorem mount_bind_amended_witness :
    SYNOPKG_VAR ∈ (backendRun ⟨"/downloads", "/mnt/target"⟩
        ⟨false, true, true, true, []⟩ []).2.1
    ∧ (backendRun ⟨"/downloads", "/mnt/target"⟩
        ⟨false, true, true, true, []⟩ []).2.2 = RunExit.errored
    ∧ Ev.spawnChild ∉ (backendRun ⟨"/downloads", "/mnt/target"⟩
        ⟨false, true, true, true, []⟩ []).1 := by
  have h := mount_bind_amended ⟨"/downloads", "/mnt/target"⟩
    ⟨false, true, true, true, []⟩ []
  exact ⟨h.1, (h.2.2.2 rfl).1, (h.2.2.2 rfl).2⟩

end Xunlei
